import Mathlib

/-!
Shallow embedding of the M-30 traffic pipeline (preprocessor, physics,
optimizer modules) for verification of its specification.

Numeric columns are modelled with rationals; a missing value (NaN in the
source tables) is modelled with Option. Timestamps are modelled post-parse
as Option of an integer, with none standing for an unparseable stamp (NaT).
-/

attribute [local semireducible] Rat.mul Rat.add Rat.inv Rat.sub Rat.ofScientific

/-- Python built-in round: round half to even (bankers rounding). -/
def pyRound (q : ℚ) : ℤ :=
  let f := ⌊q⌋
  let r := q - (f : ℚ)
  if r < 1/2 then f
  else if 1/2 < r then f + 1
  else if f % 2 = 0 then f else f + 1

/-- Embeds TrafficOptimizer rounding of a speed to the nearest multiple of 10
(source method name starts with an underscore). -/
def round_speed (speed : ℚ) : ℤ :=
  pyRound (speed / 10) * 10

/-- Python round(x, 2): two-decimal bankers rounding, used by the quality report. -/
def round2 (q : ℚ) : ℚ :=
  (pyRound (q * 100) : ℚ) / 100

/-- Insertion of an element into a list so that elements accepted by le stay in front. -/
def insertSorted {α : Type} (le : α → α → Bool) (x : α) : List α → List α
  | [] => [x]
  | y :: ys => if le x y then x :: y :: ys else y :: insertSorted le x ys

/-- Comparison sort used to model sort_values; ties keep a deterministic order,
which no verified property depends on. -/
def sortBy {α : Type} (le : α → α → Bool) (l : List α) : List α :=
  l.foldr (insertSorted le) []

theorem insertSorted_perm {α : Type} (le : α → α → Bool) (x : α) (l : List α) :
    List.Perm (insertSorted le x l) (x :: l) := by
  induction l with
  | nil => exact List.Perm.refl _
  | cons y ys ih =>
    by_cases h : le x y = true
    · simp [insertSorted, h]
    · simp only [insertSorted, h, if_false]
      exact (List.Perm.cons y ih).trans (List.Perm.swap x y ys)

theorem sortBy_perm {α : Type} (le : α → α → Bool) (l : List α) :
    List.Perm (sortBy le l) l := by
  induction l with
  | nil => exact List.Perm.refl _
  | cons x xs ih =>
    exact (insertSorted_perm le x (sortBy le xs)).trans (List.Perm.cons x ih)

/-! ## Physics module (src/physics.py) -/

/-- Embeds the binning step of calculate_critical_density: floor division by 5
then times 5 gives the 5 veh/km bin floor of a density value. -/
def density_bin (d : ℚ) : ℚ :=
  (⌊d / 5⌋ : ℚ) * 5

/-- Embeds the dropna step: keeps the rows where both density and flow are present. -/
def validPairs (df : List (Option ℚ × Option ℚ)) : List (ℚ × ℚ) :=
  df.filterMap (fun p =>
    match p with
    | (some d, some q) => some (d, q)
    | _ => none)

/-- Distinct bin keys in ascending order, as produced by the groupby on the bin column. -/
def binKeys (data : List (ℚ × ℚ)) : List ℚ :=
  (sortBy (fun a b => decide (a ≤ b)) (data.map (fun p => density_bin p.1))).dedup

/-- Mean flow of the rows falling in bin b (the groupby mean). -/
def binMean (data : List (ℚ × ℚ)) (b : ℚ) : ℚ :=
  let grp := data.filter (fun p => density_bin p.1 == b)
  ((grp.map Prod.snd).sum) / (grp.length : ℚ)

/-- First key attaining the maximal value of f, in traversal order (idxmax). -/
def argmaxFirst (f : ℚ → ℚ) (l : List ℚ) : Option ℚ :=
  l.foldl (fun acc b =>
    match acc with
    | none => some b
    | some a => if f a < f b then some b else acc) none

/-- Embeds TrafficPhysics.calculate_critical_density. The except branch of the
source (returning 45.0) is unreachable in the embedding since no operation
raises; the empty guard returns the documented 40.0 fallback. -/
def calculate_critical_density (df : List (Option ℚ × Option ℚ)) : ℚ :=
  let data := validPairs df
  if data.isEmpty then 40
  else
    match argmaxFirst (binMean data) (binKeys data) with
    | some c => c
    | none => 40

/-- Linear-interpolation percentile of a list of values, as pandas quantile
computes it. An empty input yields NaN in the source, modelled as 0 here;
no verified claim depends on that value. -/
def percentileLinear (p : ℚ) (l : List ℚ) : ℚ :=
  let s := sortBy (fun a b => decide (a ≤ b)) l
  let n := s.length
  if n = 0 then 0
  else
    let h := p * ((n - 1 : ℕ) : ℚ)
    let i := (⌊h⌋).toNat
    let g := h - (⌊h⌋ : ℚ)
    let lo := s.getD i 0
    let hi := s.getD (min (i + 1) (n - 1)) 0
    lo + g * (hi - lo)

/-- Embeds TrafficPhysics.calculate_max_capacity: the 99th percentile of flow.
The embedding always has the flow column, so the missing-column branch
returning 4000.0 is not represented. -/
def calculate_max_capacity (flows : List ℚ) : ℚ :=
  percentileLinear (99/100) flows

/-! ## Preprocessor module (src/preprocessor.py) -/

/-- Raw observation row as consumed by DataPreprocessor.clean_data.
Timestamps are represented post-parse; an unparseable stamp is none (NaT). -/
structure RawRow where
  id : ℕ
  fecha : Option ℤ
  vmed : Option ℚ
  intensidad : Option ℚ
deriving DecidableEq

/-- Quality metrics dictionary recorded by clean_data. -/
structure QualityReport where
  initial_rows : ℕ
  final_rows : ℕ
  outliers_removed : ℕ
  logic_errors_fixed : ℕ
  pct_data_kept : ℚ
deriving DecidableEq

/-- Sensor-id filter of step 1 of clean_data; none models sensor_ids=None. -/
def sensorOk (ids : Option (List ℕ)) (r : RawRow) : Bool :=
  match ids with
  | none => true
  | some l => l.contains r.id

/-- Pandas comparison of a possibly missing value with a constant: NaN compares false. -/
def optGe (x : Option ℚ) (c : ℚ) : Bool :=
  match x with
  | some v => decide (c ≤ v)
  | none => false

/-- Pandas comparison of a possibly missing value with a constant: NaN compares false. -/
def optLe (x : Option ℚ) (c : ℚ) : Bool :=
  match x with
  | some v => decide (v ≤ c)
  | none => false

/-- Pandas strict comparison with a constant: NaN compares false. -/
def optGt (x : Option ℚ) (c : ℚ) : Bool :=
  match x with
  | some v => decide (c < v)
  | none => false

/-- Validity mask of step 4 of clean_data: speed in [0, 150], flow in [0, 12000].
A missing value fails every comparison, so such rows are excluded here. -/
def mask_valid (r : RawRow) : Bool :=
  optGe r.vmed 0 && optLe r.vmed 150 && optGe r.intensidad 0 && optLe r.intensidad 12000

/-- Condition of the logical repair of step 5: speed equals 0 while flow is positive. -/
def zeroSpeedBad (r : RawRow) : Bool :=
  r.vmed == some 0 && optGt r.intensidad 0

/-- Step 5 of clean_data: where speed is 0 and flow positive, flow is zeroed. -/
def fixZeroSpeed (r : RawRow) : RawRow :=
  if zeroSpeedBad r then { r with intensidad := some 0 } else r

/-- Ordering on optional timestamps used by the sort: NaT is placed last. -/
def fechaLe : Option ℤ → Option ℤ → Bool
  | some x, some y => decide (x ≤ y)
  | some _, none => true
  | none, some _ => false
  | none, none => true

/-- Lexicographic key of the sort of step 3: by sensor id, then timestamp. -/
def rowLe (a b : RawRow) : Bool :=
  decide (a.id < b.id) || (a.id == b.id && fechaLe a.fecha b.fecha)

/-- Position and value of the closest present entry strictly before index i. -/
def lastValidBefore (l : List (Option ℚ)) (i : ℕ) : Option (ℕ × ℚ) :=
  ((l.take i).enum.filterMap (fun p => p.2.map (fun v => (p.1, v)))).getLast?

/-- Position and value of the closest present entry strictly after index i. -/
def nextValidAfter (l : List (Option ℚ)) (i : ℕ) : Option (ℕ × ℚ) :=
  ((l.enum.drop (i + 1)).filterMap (fun p => p.2.map (fun v => (p.1, v)))).head?

/-- Value at index i after pandas interpolate with method linear and limit 2:
a present value is kept; a gap is filled forward for at most 2 steps, linearly
when a later present value exists, and by extending the last value at the tail;
leading missing entries stay missing. -/
def interpAt (l : List (Option ℚ)) (i : ℕ) : Option ℚ :=
  match l.getD i none with
  | some v => some v
  | none =>
    match lastValidBefore l i, nextValidAfter l i with
    | some (j, a), some (k, b) =>
      if i - j ≤ 2 then some (a + (b - a) * (((i - j : ℕ) : ℚ) / ((k - j : ℕ) : ℚ))) else none
    | some (j, a), none => if i - j ≤ 2 then some a else none
    | none, _ => none

/-- Series transform of step 6 of clean_data: interpolate(method=linear, limit=2). -/
def interpolateLimit2 (l : List (Option ℚ)) : List (Option ℚ) :=
  (List.range l.length).map (interpAt l)

/-- Applies the per-group column transform to one finished group accumulator
(accumulated in reverse order). -/
def flushGroup (f : List (Option ℚ) → List (Option ℚ)) (get : RawRow → Option ℚ)
    (set : RawRow → Option ℚ → RawRow) (acc : List RawRow) : List RawRow :=
  let g := acc.reverse
  List.zipWith set g (f (g.map get))

/-- Worker for groupApply: walks the rows, accumulating the current contiguous
run of equal sensor ids, and applies the column transform run by run. -/
def groupApplyGo (f : List (Option ℚ) → List (Option ℚ)) (get : RawRow → Option ℚ)
    (set : RawRow → Option ℚ → RawRow) (acc : List RawRow) : List RawRow → List RawRow
  | [] => flushGroup f get set acc
  | r :: rs =>
    match acc with
    | [] => groupApplyGo f get set [r] rs
    | a :: _ =>
      if a.id == r.id then groupApplyGo f get set (r :: acc) rs
      else flushGroup f get set acc ++ groupApplyGo f get set [r] rs

/-- Embeds groupby(id).transform on one column. The input is sorted by id, so
the pandas groups are exactly the contiguous runs of equal ids. -/
def groupApply (f : List (Option ℚ) → List (Option ℚ)) (get : RawRow → Option ℚ)
    (set : RawRow → Option ℚ → RawRow) (rows : List RawRow) : List RawRow :=
  groupApplyGo f get set [] rows

/-- Step 7 of clean_data: dropna on the speed and flow columns. -/
def dropnaSpeedFlow (rows : List RawRow) : List RawRow :=
  rows.filter (fun r => r.vmed.isSome && r.intensidad.isSome)

/-- Embeds DataPreprocessor.clean_data. The method reads and overwrites the
instance quality report, modelled as an explicit state argument and result;
the report starts empty (none) on a fresh instance. -/
def clean_data (sensor_ids : Option (List ℕ)) (rep : Option QualityReport)
    (df : List RawRow) : List RawRow × Option QualityReport :=
  if df.isEmpty then (df, rep)
  else
    let initial_rows := df.length
    let df1 := df.filter (sensorOk sensor_ids)
    let df2 := sortBy rowLe df1
    let n_outliers := df2.countP (fun r => !(mask_valid r))
    let df3 := df2.filter mask_valid
    let n_logic := df3.countP zeroSpeedBad
    let df4 := df3.map fixZeroSpeed
    let df5 := groupApply interpolateLimit2 (fun r => r.vmed)
      (fun r v => { r with vmed := v }) df4
    let df6 := groupApply interpolateLimit2 (fun r => r.intensidad)
      (fun r v => { r with intensidad := v }) df5
    let df7 := dropnaSpeedFlow df6
    let report : QualityReport :=
      { initial_rows := initial_rows
        final_rows := df7.length
        outliers_removed := n_outliers
        logic_errors_fixed := n_logic
        pct_data_kept :=
          if initial_rows > 0 then round2 ((df7.length : ℚ) / (initial_rows : ℚ) * 100) else 0 }
    (df7, some report)

example :
    (clean_data none none [⟨1, some 0, some 0, some 120⟩, ⟨1, some 1, some 50, some 1000⟩]).1 =
      [⟨1, some 0, some 0, some 0⟩, ⟨1, some 1, some 50, some 1000⟩] := by decide
example : (clean_data none none [⟨1, some 0, some 50, some 1000⟩]).2 =
    some ⟨1, 1, 0, 0, 100⟩ := by decide
example : clean_data none none [] = ([], none) := by decide
example : interpolateLimit2 [some 1, none, none, none, some 9] =
    [some 1, some 3, some 5, none, some 9] := by decide
example : interpolateLimit2 [none, some 4, none, none, none] =
    [none, some 4, some 4, some 4, none] := by decide

/-- Input row of create_features: cleaned data, so speed and flow are present.
The occupancy value is meaningful only when the table has that column. -/
structure FeatureInput where
  vmed : ℚ
  intensidad : ℚ
  ocupacion : ℚ
deriving DecidableEq

/-- Row of create_features output restricted to the columns under verification. -/
structure FeatureRow where
  vmed : ℚ
  intensidad : ℚ
  density : ℚ
  traffic_state : String
deriving DecidableEq

/-- Embeds the categorize_state helper of create_features. -/
def categorize_state (v : ℚ) : String :=
  if v > 70 then "Fluido"
  else if v > 40 then "Denso"
  else "Congestion"

/-- Embeds the density and traffic-state computations of
DataPreprocessor.create_features (the further time and rolling features are
not needed by any verified claim). hasOcupacion models whether the table has
the ocupacion column. -/
def create_features (hasOcupacion : Bool) (rows : List FeatureInput) : List FeatureRow :=
  rows.map (fun r =>
    let safe_speed := max r.vmed 10
    let k_qv := r.intensidad / safe_speed
    let k_occ := if hasOcupacion then r.ocupacion * 3.5 else k_qv
    let density := min (if r.vmed > 10 then k_qv else k_occ) 500
    { vmed := r.vmed, intensidad := r.intensidad, density := density
      traffic_state := categorize_state r.vmed })

/-! ## Optimizer module (src/optimizer.py) -/

/-- Enriched observation row as read by the optimizer simulation
(row.get of density, intensidad, vmed). -/
structure EnrRow where
  density : ℚ
  intensidad : ℚ
  vmed : ℚ
deriving DecidableEq

/-- Output row of optimize_traffic: the original columns plus the three
optimization columns (the simulated_speed and optimal_speed_limit aliases
duplicate two of them and are omitted). -/
structure OptRow where
  row : EnrRow
  intensidad_opt : ℚ
  velocidad_opt : ℤ
  limite_dinamico : ℤ
deriving DecidableEq

/-- Step-down ladder of optimize_traffic: 90 to 70, 70 to 50, lower to 30. -/
def v_vsl_target (base : ℤ) : ℤ :=
  if base ≥ 90 then 70 else if base ≥ 70 then 50 else 30

/-- Embeds the simular_escenario closure of optimize_traffic: returns the new
flow, new speed (before rounding) and the limit in force. -/
def simular_escenario (k_crit q_max : ℚ) (base v_target : ℤ) (row : EnrRow) : ℚ × ℚ × ℤ :=
  let densidad_real := row.density
  let flujo_real := row.intensidad
  let velocidad_real := row.vmed
  let algoritmo_activo := decide (densidad_real > k_crit * (9/10))
  if algoritmo_activo then
    let compliance_rate : ℚ := 8/10
    let base_improvement : ℚ := 1/10
    let real_improvement := base_improvement * compliance_rate
    let factor_mejora_flujo := 1 + real_improvement
    let nuevo_flujo := min (flujo_real * factor_mejora_flujo) q_max
    let nueva_velocidad := if densidad_real > 0 then nuevo_flujo / densidad_real else velocidad_real
    let nueva_velocidad := min nueva_velocidad (base : ℚ)
    let nueva_velocidad := max nueva_velocidad velocidad_real
    (nuevo_flujo, nueva_velocidad, v_target)
  else
    (flujo_real, velocidad_real, base)

/-- Critical density parameter of optimize_traffic: the override when given,
otherwise the physics estimate over the frame. -/
def optKcrit (kOv : Option ℚ) (rows : List EnrRow) : ℚ :=
  match kOv with
  | some k => k
  | none => calculate_critical_density (rows.map (fun r => (some r.density, some r.intensidad)))

/-- Max capacity parameter of optimize_traffic: the override when given,
otherwise the physics estimate over the frame. -/
def optQmax (qOv : Option ℚ) (rows : List EnrRow) : ℚ :=
  match qOv with
  | some q => q
  | none => calculate_max_capacity (rows.map (fun r => r.intensidad))

/-- Embeds TrafficOptimizer.optimize_traffic: parameter selection, per-row
simulation, and rounding of the optimized speed. -/
def optimize_traffic (kOv qOv : Option ℚ) (base : ℤ) (rows : List EnrRow) : List OptRow :=
  let k_crit := optKcrit kOv rows
  let q_max := optQmax qOv rows
  let vt := v_vsl_target base
  rows.map (fun r =>
    let res := simular_escenario k_crit q_max base vt r
    { row := r, intensidad_opt := res.1, velocidad_opt := round_speed res.2.1
      limite_dinamico := res.2.2 })

example : create_features true [⟨30, 1200, 20⟩] = [⟨30, 1200, 40, "Congestion"⟩] := by decide
example : create_features true [⟨80, 1200, 20⟩] = [⟨80, 1200, 15, "Fluido"⟩] := by decide
example : create_features false [⟨5, 1200, 20⟩] = [⟨5, 1200, 120, "Congestion"⟩] := by decide
example : optimize_traffic (some 40) (some 4000) 90 [⟨30, 100, 44⟩] =
    [⟨⟨30, 100, 44⟩, 100, 40, 90⟩] := by decide
example : optimize_traffic (some 40) (some 4000) 90 [⟨38, 1000, 20⟩] =
    [⟨⟨38, 1000, 20⟩, 1080, 30, 70⟩] := by decide

/-! ## Helper lemmas -/

theorem map_getD_range {α : Type} (l : List α) (d : α) :
    (List.range l.length).map (fun i => l.getD i d) = l := by
  induction l with
  | nil => rfl
  | cons a t ih =>
    rw [List.length_cons, List.range_succ_eq_map, List.map_cons, List.map_map]
    have hcomp : ((fun i => (a :: t).getD i d) ∘ Nat.succ) = fun i => t.getD i d := by
      funext i
      simp [List.getD_cons_succ]
    rw [List.getD_cons_zero, hcomp, ih]

theorem interpolateLimit2_length (l : List (Option ℚ)) :
    (interpolateLimit2 l).length = l.length := by
  simp [interpolateLimit2]

theorem interpolateLimit2_allSome (l : List (Option ℚ))
    (h : ∀ x ∈ l, x.isSome = true) : interpolateLimit2 l = l := by
  have hcong : ∀ i ∈ List.range l.length, interpAt l i = l.getD i none := by
    intro i hi
    rw [List.mem_range] at hi
    have hmem : l.getD i none = l[i] := List.getD_eq_getElem l none hi
    have hsome : (l[i]).isSome = true := h _ (List.getElem_mem hi)
    obtain ⟨v, hv⟩ := Option.isSome_iff_exists.mp hsome
    rw [interpAt, hmem, hv]
  rw [interpolateLimit2, List.map_congr_left hcong, map_getD_range]

theorem zipWith_set_map_get (get : RawRow → Option ℚ) (set : RawRow → Option ℚ → RawRow)
    (hsg : ∀ r, set r (get r) = r) (g : List RawRow) :
    List.zipWith set g (g.map get) = g := by
  induction g with
  | nil => rfl
  | cons r rs ih => simp [hsg, ih]

theorem flushGroup_allSome (f : List (Option ℚ) → List (Option ℚ))
    (get : RawRow → Option ℚ) (set : RawRow → Option ℚ → RawRow)
    (hf : ∀ l, (∀ x ∈ l, x.isSome = true) → f l = l)
    (hsg : ∀ r, set r (get r) = r) (acc : List RawRow)
    (h : ∀ r ∈ acc, (get r).isSome = true) :
    flushGroup f get set acc = acc.reverse := by
  rw [flushGroup]
  have hall : ∀ x ∈ (acc.reverse.map get), x.isSome = true := by
    intro x hx
    obtain ⟨r, hr, hrx⟩ := List.mem_map.mp hx
    exact hrx ▸ h r (List.mem_reverse.mp hr)
  rw [hf _ hall, zipWith_set_map_get get set hsg]

theorem groupApplyGo_allSome (f : List (Option ℚ) → List (Option ℚ))
    (get : RawRow → Option ℚ) (set : RawRow → Option ℚ → RawRow)
    (hf : ∀ l, (∀ x ∈ l, x.isSome = true) → f l = l)
    (hsg : ∀ r, set r (get r) = r) :
    ∀ (l acc : List RawRow), (∀ r ∈ l, (get r).isSome = true) →
      (∀ r ∈ acc, (get r).isSome = true) →
      groupApplyGo f get set acc l = acc.reverse ++ l := by
  intro l
  induction l with
  | nil =>
    intro acc _ hacc
    rw [groupApplyGo, flushGroup_allSome f get set hf hsg acc hacc, List.append_nil]
  | cons r rs ih =>
    intro acc hl hacc
    have hr : (get r).isSome = true := hl r (List.mem_cons_self r rs)
    have hrs : ∀ x ∈ rs, (get x).isSome = true := fun x hx => hl x (List.mem_cons_of_mem r hx)
    match acc with
    | [] =>
      rw [groupApplyGo, ih [r] hrs (by simpa using hr)]
      simp
    | a :: t =>
      rw [groupApplyGo]
      by_cases hid : (a.id == r.id) = true
      · rw [if_pos hid, ih (r :: a :: t) hrs (by
          intro x hx
          rcases List.mem_cons.mp hx with h1 | h2
          · exact h1 ▸ hr
          · exact hacc x h2)]
        simp
      · rw [if_neg hid, flushGroup_allSome f get set hf hsg (a :: t) hacc,
          ih [r] hrs (by simpa using hr)]
        simp

theorem groupApply_allSome (f : List (Option ℚ) → List (Option ℚ))
    (get : RawRow → Option ℚ) (set : RawRow → Option ℚ → RawRow)
    (hf : ∀ l, (∀ x ∈ l, x.isSome = true) → f l = l)
    (hsg : ∀ r, set r (get r) = r) (rows : List RawRow)
    (h : ∀ r ∈ rows, (get r).isSome = true) :
    groupApply f get set rows = rows := by
  rw [groupApply, groupApplyGo_allSome f get set hf hsg rows [] h (by simp)]
  rfl

/-- Sensor and timestamp key of a row, the pair whose distinctness C9 is about. -/
def pairKey (r : RawRow) : ℕ × Option ℤ :=
  (r.id, r.fecha)

theorem zipWith_set_pairKey (set : RawRow → Option ℚ → RawRow)
    (hset : ∀ r v, pairKey (set r v) = pairKey r) :
    ∀ (g : List RawRow) (vals : List (Option ℚ)), vals.length = g.length →
      (List.zipWith set g vals).map pairKey = g.map pairKey := by
  intro g
  induction g with
  | nil => intro vals _; rfl
  | cons r rs ih =>
    intro vals hlen
    match vals with
    | [] => simp at hlen
    | v :: vs =>
      simp only [List.zipWith_cons_cons, List.map_cons, hset]
      rw [ih vs (by simpa using hlen)]

theorem flushGroup_pairKey (f : List (Option ℚ) → List (Option ℚ))
    (get : RawRow → Option ℚ) (set : RawRow → Option ℚ → RawRow)
    (hflen : ∀ l, (f l).length = l.length)
    (hset : ∀ r v, pairKey (set r v) = pairKey r) (acc : List RawRow) :
    (flushGroup f get set acc).map pairKey = acc.reverse.map pairKey := by
  rw [flushGroup]
  exact zipWith_set_pairKey set hset acc.reverse _ (by rw [hflen, List.length_map])

theorem groupApplyGo_pairKey (f : List (Option ℚ) → List (Option ℚ))
    (get : RawRow → Option ℚ) (set : RawRow → Option ℚ → RawRow)
    (hflen : ∀ l, (f l).length = l.length)
    (hset : ∀ r v, pairKey (set r v) = pairKey r) :
    ∀ (l acc : List RawRow),
      (groupApplyGo f get set acc l).map pairKey =
        acc.reverse.map pairKey ++ l.map pairKey := by
  intro l
  induction l with
  | nil =>
    intro acc
    rw [groupApplyGo, flushGroup_pairKey f get set hflen hset]
    simp
  | cons r rs ih =>
    intro acc
    match acc with
    | [] =>
      rw [groupApplyGo, ih [r]]
      simp
    | a :: t =>
      rw [groupApplyGo]
      by_cases hid : (a.id == r.id) = true
      · rw [if_pos hid, ih (r :: a :: t)]
        simp
      · rw [if_neg hid, List.map_append, flushGroup_pairKey f get set hflen hset, ih [r]]
        simp

theorem groupApply_pairKey (f : List (Option ℚ) → List (Option ℚ))
    (get : RawRow → Option ℚ) (set : RawRow → Option ℚ → RawRow)
    (hflen : ∀ l, (f l).length = l.length)
    (hset : ∀ r v, pairKey (set r v) = pairKey r) (rows : List RawRow) :
    (groupApply f get set rows).map pairKey = rows.map pairKey := by
  rw [groupApply, groupApplyGo_pairKey f get set hflen hset rows []]
  rfl

theorem argmaxFold (f : ℚ → ℚ) :
    ∀ (l : List ℚ) (a : ℚ), ∃ c,
      List.foldl (fun acc b =>
        match acc with
        | none => some b
        | some x => if f x < f b then some b else acc) (some a) l = some c ∧
      (c = a ∨ c ∈ l) ∧ f a ≤ f c ∧ ∀ y ∈ l, f y ≤ f c := by
  intro l
  induction l with
  | nil => exact fun a => ⟨a, rfl, Or.inl rfl, le_refl _, by simp⟩
  | cons b bs ih =>
    intro a
    by_cases hab : f a < f b
    · obtain ⟨c, hc, hmem, hle, hall⟩ := ih b
      refine ⟨c, ?_, ?_, ?_, ?_⟩
      · simpa [hab] using hc
      · rcases hmem with h | h
        · exact Or.inr (h ▸ List.mem_cons_self b bs)
        · exact Or.inr (List.mem_cons_of_mem b h)
      · exact le_of_lt (lt_of_lt_of_le hab hle)
      · intro y hy
        rcases List.mem_cons.mp hy with h | h
        · exact h ▸ hle
        · exact hall y h
    · obtain ⟨c, hc, hmem, hle, hall⟩ := ih a
      refine ⟨c, ?_, ?_, ?_, ?_⟩
      · simpa [hab] using hc
      · rcases hmem with h | h
        · exact Or.inl h
        · exact Or.inr (List.mem_cons_of_mem b h)
      · exact hle
      · intro y hy
        rcases List.mem_cons.mp hy with h | h
        · exact h ▸ le_trans (le_of_not_lt hab) hle
        · exact hall y h

theorem argmaxFirst_spec (f : ℚ → ℚ) (l : List ℚ) (hne : l ≠ []) :
    ∃ c, argmaxFirst f l = some c ∧ c ∈ l ∧ ∀ y ∈ l, f y ≤ f c := by
  match l with
  | [] => exact absurd rfl hne
  | b :: bs =>
    obtain ⟨c, hc, hmem, hle, hall⟩ := argmaxFold f bs b
    refine ⟨c, ?_, ?_, ?_⟩
    · simpa [argmaxFirst] using hc
    · rcases hmem with h | h
      · exact h ▸ List.mem_cons_self b bs
      · exact List.mem_cons_of_mem b h
    · intro y hy
      rcases List.mem_cons.mp hy with h | h
      · exact h ▸ hle
      · exact hall y h

theorem pyRound_half (k : ℤ) :
    pyRound ((k : ℚ) + 1/2) = if k % 2 = 0 then k else k + 1 := by
  have hfl : ⌊(k : ℚ) + 1/2⌋ = k := by
    rw [add_comm, Int.floor_add_int]
    norm_num
  rw [pyRound]
  simp only [hfl]
  have hr : (k : ℚ) + 1/2 - (k : ℚ) = 1/2 := by ring
  rw [hr]
  norm_num

theorem round_speed_half (k : ℤ) :
    round_speed (10 * (k : ℚ) + 5) = if k % 2 = 0 then 10 * k else 10 * (k + 1) := by
  have hq : (10 * (k : ℚ) + 5) / 10 = (k : ℚ) + 1/2 := by ring
  rw [round_speed, hq, pyRound_half]
  by_cases hk : k % 2 = 0
  · rw [if_pos hk, if_pos hk, mul_comm]
  · rw [if_neg hk, if_neg hk, mul_comm]

theorem optGe_isSome {x : Option ℚ} {c : ℚ} (h : optGe x c = true) : x.isSome = true := by
  cases x with
  | none => simp [optGe] at h
  | some v => rfl

theorem mask_valid_some {r : RawRow} (h : mask_valid r = true) :
    r.vmed.isSome = true ∧ r.intensidad.isSome = true := by
  rw [mask_valid] at h
  simp only [Bool.and_eq_true] at h
  exact ⟨optGe_isSome h.1.1.1, optGe_isSome h.1.2⟩

theorem fixZeroSpeed_vmed (r : RawRow) : (fixZeroSpeed r).vmed = r.vmed := by
  rw [fixZeroSpeed]
  split <;> rfl

theorem fixZeroSpeed_intensidad_some {r : RawRow} (h : r.intensidad.isSome = true) :
    (fixZeroSpeed r).intensidad.isSome = true := by
  rw [fixZeroSpeed]
  split
  · rfl
  · exact h

theorem fixZeroSpeed_zero {r : RawRow} (hm : mask_valid r = true)
    (h0 : (fixZeroSpeed r).vmed = some 0) : (fixZeroSpeed r).intensidad = some 0 := by
  rw [fixZeroSpeed_vmed] at h0
  rw [fixZeroSpeed]
  by_cases hb : zeroSpeedBad r = true
  · rw [if_pos hb]
  · rw [if_neg hb]
    rw [zeroSpeedBad] at hb
    have hbeq : (r.vmed == some 0) = true := by rw [h0]; rfl
    have hgt : optGt r.intensidad 0 = false := by
      cases hgtc : optGt r.intensidad 0
      · rfl
      · exact absurd (by rw [hbeq, hgtc]; rfl :
          (r.vmed == some 0 && optGt r.intensidad 0) = true) hb
    rw [mask_valid] at hm
    simp only [Bool.and_eq_true] at hm
    have hge := hm.1.2
    cases hi : r.intensidad with
    | none =>
      rw [hi] at hge
      simp [optGe] at hge
    | some q =>
      rw [hi] at hge hgt
      simp only [optGe, decide_eq_true_eq] at hge
      simp only [optGt, decide_eq_false_iff_not, not_lt] at hgt
      rw [le_antisymm hgt hge]

theorem countP_filter_and (l : List RawRow) (p q : RawRow → Bool) :
    (l.filter p).countP q = l.countP (fun r => p r && q r) := by
  induction l with
  | nil => rfl
  | cons a t ih =>
    cases hp : p a <;> cases hq : q a <;>
      simp [List.filter_cons, List.countP_cons, hp, hq, ih]

/-- Structural shape of the nonempty branch of clean_data, before any
simplification of its stages. -/
theorem clean_data_fst (ids : Option (List ℕ)) (rep : Option QualityReport)
    (df : List RawRow) (hne : df.isEmpty = false) :
    (clean_data ids rep df).1 =
      dropnaSpeedFlow
        (groupApply interpolateLimit2 (fun r => r.intensidad)
          (fun r v => { r with intensidad := v })
          (groupApply interpolateLimit2 (fun r => r.vmed) (fun r v => { r with vmed := v })
            (((sortBy rowLe (df.filter (sensorOk ids))).filter mask_valid).map
              fixZeroSpeed))) := by
  simp only [clean_data, hne, Bool.false_eq_true, if_false]

/-- After the range filter no value is missing, so the interpolation and
dropna stages of clean_data leave the frame unchanged. -/
theorem clean_data_fst_eq (ids : Option (List ℕ)) (rep : Option QualityReport)
    (df : List RawRow) (hne : df.isEmpty = false) :
    (clean_data ids rep df).1 =
      ((sortBy rowLe (df.filter (sensorOk ids))).filter mask_valid).map fixZeroSpeed := by
  rw [clean_data_fst ids rep df hne]
  set l4 := ((sortBy rowLe (df.filter (sensorOk ids))).filter mask_valid).map fixZeroSpeed
    with hl4
  have hsome : ∀ r ∈ l4, r.vmed.isSome = true ∧ r.intensidad.isSome = true := by
    intro r hr
    rw [hl4] at hr
    obtain ⟨r0, hr0, rfl⟩ := List.mem_map.mp hr
    obtain ⟨h1, h2⟩ := mask_valid_some (List.of_mem_filter hr0)
    exact ⟨by rw [fixZeroSpeed_vmed]; exact h1, fixZeroSpeed_intensidad_some h2⟩
  have h5 : groupApply interpolateLimit2 (fun r => r.vmed)
      (fun r v => { r with vmed := v }) l4 = l4 :=
    groupApply_allSome _ _ _ interpolateLimit2_allSome (fun r => by cases r; rfl) l4
      (fun r hr => (hsome r hr).1)
  rw [h5]
  have h6 : groupApply interpolateLimit2 (fun r => r.intensidad)
      (fun r v => { r with intensidad := v }) l4 = l4 :=
    groupApply_allSome _ _ _ interpolateLimit2_allSome (fun r => by cases r; rfl) l4
      (fun r hr => (hsome r hr).2)
  rw [h6, dropnaSpeedFlow]
  apply List.filter_eq_self.mpr
  intro r hr
  obtain ⟨h1, h2⟩ := hsome r hr
  rw [h1, h2]
  rfl

/-! ## Claim theorems -/

/-- Claim C4, counterexample: the claim asserts that a row with speed exactly
70 is classified Free and one with speed exactly 40 is classified Dense; the
code classifies 70 as Dense and 40 as Congested. -/
theorem C4_counterexample :
    categorize_state 70 = "Denso" ∧ categorize_state 70 ≠ "Fluido" ∧
    categorize_state 40 = "Congestion" ∧ categorize_state 40 ≠ "Denso" := by
  decide

/-- Claim C4 (amended): classification is a function of speed alone with
strict thresholds: above 70 Free, above 40 and at most 70 Dense, at most 40
Congested; at the boundaries, speed exactly 70 is Dense and speed exactly 40
is Congested. -/
theorem C4_thresholds :
    (∀ v : ℚ, 70 < v → categorize_state v = "Fluido") ∧
    (∀ v : ℚ, 40 < v → v ≤ 70 → categorize_state v = "Denso") ∧
    (∀ v : ℚ, v ≤ 40 → categorize_state v = "Congestion") ∧
    categorize_state 70 = "Denso" ∧ categorize_state 40 = "Congestion" := by
  refine ⟨?_, ?_, ?_, by decide, by decide⟩
  · intro v h
    rw [categorize_state, if_pos h]
  · intro v h1 h2
    rw [categorize_state, if_neg (not_lt.mpr h2), if_pos h1]
  · intro v h
    have h70 : ¬ (70 : ℚ) < v := not_lt.mpr (le_trans h (by norm_num))
    rw [categorize_state, if_neg h70, if_neg (not_lt.mpr h)]

/-- Claim C4 witness: the three threshold cases at concrete speeds. -/
theorem C4_witness :
    categorize_state 80 = "Fluido" ∧ categorize_state 50 = "Denso" ∧
    categorize_state 30 = "Congestion" :=
  ⟨C4_thresholds.1 80 (by norm_num),
    C4_thresholds.2.1 50 (by norm_num) (by norm_num),
    C4_thresholds.2.2.1 30 (by norm_num)⟩

/-- Claim C6, counterexample: for the row with speed 30, flow 1200 and
occupancy 20, the claim asserts density 20 times 3.5 = 70; the code assigns
density 1200/30 = 40, because the occupancy branch applies only when speed is
at most 10 and here speed is 30. -/
theorem C6_counterexample :
    ¬ (∀ r ∈ create_features true [⟨30, 1200, 20⟩], r.density = 70) := by
  decide

/-- Claim C6 (amended): for the enriched row with speed 30, flow 1200 and
occupancy 20, create_features assigns density 1200/30 = 40 (flow over speed,
since speed 30 exceeds the low-speed threshold 10) and classifies the row as
Congested. -/
theorem C6_density_state :
    create_features true [⟨30, 1200, 20⟩] = [⟨30, 1200, 40, "Congestion"⟩] := by
  decide

/-- Claim C7, counterexample: an input with exactly one valid pair (fewer
than 2 data points) does not return the documented fallback 40.0; it returns
the bin floor of that single density, here 70. -/
theorem C7_counterexample :
    calculate_critical_density [(some 70, some 1000)] = 70 ∧ (70 : ℚ) ≠ 40 := by
  decide

/-- Claim C7 (amended): the Estimator never raises; with zero valid
(density, flow) pairs it returns the fallback constant 40.0, and with exactly
one valid pair it returns the 5-wide bin floor of that density instead of the
fallback. -/
theorem C7_small_inputs :
    (∀ df : List (Option ℚ × Option ℚ), validPairs df = [] →
      calculate_critical_density df = 40) ∧
    (∀ d q : ℚ, calculate_critical_density [(some d, some q)] = density_bin d) := by
  constructor
  · intro df h
    simp [calculate_critical_density, h]
  · intro d q
    have hdata : validPairs [(some d, some q)] = [(d, q)] := rfl
    have hkeys : binKeys [(d, q)] = [density_bin d] := by
      rw [binKeys]
      have hsort : sortBy (fun a b => decide (a ≤ b))
          ([(d, q)].map (fun p => density_bin p.1)) = [density_bin d] := rfl
      rw [hsort, List.dedup_cons_of_not_mem (List.not_mem_nil _), List.dedup_nil]
    have hmax : argmaxFirst (binMean [(d, q)]) [density_bin d] = some (density_bin d) := rfl
    simp only [calculate_critical_density, hdata, hkeys, hmax, List.isEmpty_cons,
      Bool.false_eq_true, if_false]

/-- Claim C7 witness: the fallback at an input with no valid pair, and the
single-pair bin floor at density 42. -/
theorem C7_witness :
    calculate_critical_density [((none : Option ℚ), some 5)] = 40 ∧
    calculate_critical_density [(some 42, some 900)] = density_bin 42 :=
  ⟨C7_small_inputs.1 [(none, some 5)] (by decide), C7_small_inputs.2 42 900⟩

/-- Claim C8, counterexample: a clean_data call on a nonempty frame leaves a
populated quality report; a following call on an empty frame returns early,
so the report is not reset to empty as the claim asserts. -/
theorem C8_counterexample :
    (clean_data none
      (clean_data none none [⟨1, some 0, some 50, some 1000⟩]).2 []).2 ≠ none := by
  decide

/-- Claim C8 (amended): clean_data on an empty input returns an empty frame
and leaves the instance quality report exactly as it was before the call; the
report is therefore empty after such a call only on a fresh instance. -/
theorem C8_empty_input :
    ∀ (ids : Option (List ℕ)) (rep : Option QualityReport),
      clean_data ids rep [] = ([], rep) := by
  intro ids rep
  rfl

/-- Claim C10: every optimized speed is an integer multiple of 10, and the
rounding is round-half-to-even: a pre-rounding speed exactly midway between
two multiples of 10 goes to the even one, so 85 rounds to 80 and 95 to 100. -/
theorem C10_round_half_even :
    (∀ (kOv qOv : Option ℚ) (base : ℤ) (rows : List EnrRow),
      ∀ o ∈ optimize_traffic kOv qOv base rows, ∃ n : ℤ, o.velocidad_opt = 10 * n) ∧
    (∀ k : ℤ, round_speed (10 * (k : ℚ) + 5) = if k % 2 = 0 then 10 * k else 10 * (k + 1)) ∧
    round_speed 85 = 80 ∧ round_speed 95 = 100 := by
  refine ⟨?_, round_speed_half, by decide, by decide⟩
  intro kOv qOv base rows o ho
  simp only [optimize_traffic, List.mem_map] at ho
  obtain ⟨r, hr, rfl⟩ := ho
  exact ⟨pyRound ((simular_escenario (optKcrit kOv rows) (optQmax qOv rows) base
    (v_vsl_target base) r).2.1 / 10), mul_comm _ _⟩

/-- Claim C10 witness: the multiple-of-10 shape at a concrete optimized row. -/
theorem C10_witness :
    ∃ n : ℤ, (⟨⟨38, 1000, 20⟩, 1080, 30, 70⟩ : OptRow).velocidad_opt = 10 * n :=
  C10_round_half_even.1 (some 40) (some 4000) 90 [⟨38, 1000, 20⟩] _ (by decide)

/-- Claim C1, counterexample: an inactive row with observed speed 44 is
rounded to 40, so the final optimized speed falls below the observed speed,
refuting the claimed non-degradation bound on the output column. -/
theorem C1_counterexample :
    ¬ (∀ o ∈ optimize_traffic (some 40) (some 4000) 90 [⟨30, 100, 44⟩],
        o.row.vmed ≤ (o.velocidad_opt : ℚ) ∧ (o.velocidad_opt : ℚ) ≤ 90) := by
  decide

/-- Claim C1 (amended): the bounds hold for the pre-rounding simulated speed:
it is at least the observed speed, and it is at most base_speed_limit whenever
the observed speed does not already exceed that limit; the output
optimized_speed is that value rounded to the nearest multiple of 10, which
can move it below the observed speed or above the base limit by at most one
rounding step. -/
theorem C1_speed_bounds :
    (∀ (k q_max : ℚ) (base vt : ℤ) (r : EnrRow),
      r.vmed ≤ (simular_escenario k q_max base vt r).2.1 ∧
      (r.vmed ≤ (base : ℚ) → (simular_escenario k q_max base vt r).2.1 ≤ (base : ℚ))) ∧
    (∀ (kOv qOv : Option ℚ) (base : ℤ) (rows : List EnrRow),
      ∀ o ∈ optimize_traffic kOv qOv base rows,
        o.velocidad_opt = round_speed (simular_escenario (optKcrit kOv rows)
          (optQmax qOv rows) base (v_vsl_target base) o.row).2.1) := by
  constructor
  · intro k q_max base vt r
    rw [simular_escenario]
    by_cases h : r.density > k * (9/10)
    · simp only [h, decide_True, if_true]
      constructor
      · exact le_max_right _ _
      · intro hb
        exact max_le (min_le_right _ _) hb
    · simp only [h, decide_False, Bool.false_eq_true, if_false]
      exact ⟨le_refl _, fun hb => hb⟩
  · intro kOv qOv base rows o ho
    simp only [optimize_traffic, List.mem_map] at ho
    obtain ⟨r, hr, rfl⟩ := ho
    rfl

/-- Claim C1 witness: the amended bounds at a concrete active row. -/
theorem C1_witness :
    ((⟨38, 1000, 20⟩ : EnrRow).vmed ≤ (simular_escenario 40 4000 90 70 ⟨38, 1000, 20⟩).2.1) ∧
    (simular_escenario 40 4000 90 70 ⟨38, 1000, 20⟩).2.1 ≤ ((90 : ℤ) : ℚ) :=
  ⟨(C1_speed_bounds.1 40 4000 90 70 ⟨38, 1000, 20⟩).1,
    (C1_speed_bounds.1 40 4000 90 70 ⟨38, 1000, 20⟩).2 (by decide)⟩

/-- Claim C3, counterexample: an inactive row passes flow and limit through,
but the output optimized speed is the observed speed rounded to a multiple of
10 (47 becomes 50), so the output does not equal the observed speed. -/
theorem C3_counterexample :
    ¬ (∀ o ∈ optimize_traffic (some 40) (some 4000) 90 [⟨30, 250, 47⟩],
        o.intensidad_opt = o.row.intensidad ∧ (o.velocidad_opt : ℚ) = o.row.vmed ∧
        o.limite_dinamico = 90) := by
  decide

/-- Claim C3 (amended): on a row whose density is at most 90 percent of the
effective critical density the simulation is inactive: optimized flow equals
observed flow, the dynamic limit equals base_speed_limit, and the optimized
speed equals the observed speed rounded to the nearest multiple of 10 (equal
to the observed speed exactly when that speed is already a multiple of 10). -/
theorem C3_inactive_rows :
    ∀ (kOv qOv : Option ℚ) (base : ℤ) (rows : List EnrRow),
      ∀ o ∈ optimize_traffic kOv qOv base rows,
        o.row.density ≤ optKcrit kOv rows * (9/10) →
          o.intensidad_opt = o.row.intensidad ∧
          o.velocidad_opt = round_speed o.row.vmed ∧
          o.limite_dinamico = base := by
  intro kOv qOv base rows o ho hd
  simp only [optimize_traffic, List.mem_map] at ho
  obtain ⟨r, hr, rfl⟩ := ho
  have hact : ¬ r.density > optKcrit kOv rows * (9/10) := not_lt.mpr hd
  constructor
  · show (simular_escenario _ _ _ _ r).1 = r.intensidad
    rw [simular_escenario]
    simp only [hact, decide_False, Bool.false_eq_true, if_false]
  constructor
  · show round_speed (simular_escenario _ _ _ _ r).2.1 = round_speed r.vmed
    rw [simular_escenario]
    simp only [hact, decide_False, Bool.false_eq_true, if_false]
  · show (simular_escenario _ _ _ _ r).2.2 = base
    rw [simular_escenario]
    simp only [hact, decide_False, Bool.false_eq_true, if_false]

/-- Claim C3 witness: the inactive pass-through at a concrete row of density
30 against a critical density of 40. -/
theorem C3_witness :
    (⟨⟨30, 250, 47⟩, 250, 50, 90⟩ : OptRow).intensidad_opt =
      (⟨⟨30, 250, 47⟩, 250, 50, 90⟩ : OptRow).row.intensidad ∧
    (⟨⟨30, 250, 47⟩, 250, 50, 90⟩ : OptRow).velocidad_opt =
      round_speed (⟨⟨30, 250, 47⟩, 250, 50, 90⟩ : OptRow).row.vmed ∧
    (⟨⟨30, 250, 47⟩, 250, 50, 90⟩ : OptRow).limite_dinamico = 90 :=
  C3_inactive_rows (some 40) (some 4000) 90 [⟨30, 250, 47⟩] _ (by decide) (by decide)

/-- Claim C5: with at least one valid (density, flow) pair, the Estimator
returns a 5-wide bin key whose mean flow is maximal among all bin keys; in
particular, when bin 40 (the bin [40, 45)) strictly dominates every other bin
in mean flow, the returned critical density is exactly 40, the bin floor. -/
theorem C5_peak_bin :
    ∀ df : List (Option ℚ × Option ℚ), validPairs df ≠ [] →
      (∃ c, calculate_critical_density df = c ∧ c ∈ binKeys (validPairs df) ∧
        ∀ b ∈ binKeys (validPairs df),
          binMean (validPairs df) b ≤ binMean (validPairs df) c) ∧
      ((40 ∈ binKeys (validPairs df) ∧
          ∀ b ∈ binKeys (validPairs df), b ≠ 40 →
            binMean (validPairs df) b < binMean (validPairs df) 40) →
        calculate_critical_density df = 40) := by
  intro df hne
  have hkeys_ne : binKeys (validPairs df) ≠ [] := by
    intro hmt
    apply hne
    rw [binKeys] at hmt
    have hsnil : sortBy (fun a b => decide (a ≤ b))
        ((validPairs df).map (fun p => density_bin p.1)) = [] :=
      (List.dedup_eq_nil _).mp hmt
    have hlen := (sortBy_perm (fun a b => decide (a ≤ b))
      ((validPairs df).map (fun p => density_bin p.1))).length_eq
    rw [hsnil] at hlen
    simpa using (List.map_eq_nil_iff.mp (List.eq_nil_of_length_eq_zero hlen.symm))
  obtain ⟨c, hc, hcmem, hcall⟩ := argmaxFirst_spec (binMean (validPairs df))
    (binKeys (validPairs df)) hkeys_ne
  have hccd : calculate_critical_density df = c := by
    rw [calculate_critical_density]
    have hempty : (validPairs df).isEmpty = false := by
      cases hv : validPairs df with
      | nil => exact absurd hv hne
      | cons a l => rfl
    simp only [hempty, Bool.false_eq_true, if_false, hc]
  refine ⟨⟨c, hccd, hcmem, hcall⟩, ?_⟩
  rintro ⟨h40mem, h40max⟩
  by_cases hceq : c = 40
  · rw [hccd, hceq]
  · have h1 : binMean (validPairs df) c < binMean (validPairs df) 40 :=
      h40max c hcmem hceq
    have h2 : binMean (validPairs df) 40 ≤ binMean (validPairs df) c :=
      hcall 40 h40mem
    exact absurd (lt_of_le_of_lt h2 h1) (lt_irrefl _)

/-- Claim C5 witness: three pairs with strict peak mean flow in bin [40, 45)
yield critical density exactly 40. -/
theorem C5_witness :
    calculate_critical_density
      [(some 38, some 1000), (some 42, some 2000), (some 50, some 500)] = 40 :=
  (C5_peak_bin _ (by decide)).2 (by decide)

/-- Claim C2: every cleaned row with speed 0 has flow 0, and violating rows
are repaired rather than discarded: the output row count equals the count of
input rows passing the sensor filter and the physical range mask, so the
repair step drops nothing. -/
theorem C2_zero_flow :
    ∀ (ids : Option (List ℕ)) (rep : Option QualityReport) (df : List RawRow),
      (∀ r ∈ (clean_data ids rep df).1, r.vmed = some 0 → r.intensidad = some 0) ∧
      (clean_data ids rep df).1.length =
        df.countP (fun r => sensorOk ids r && mask_valid r) := by
  intro ids rep df
  by_cases hemp : df.isEmpty = true
  · have hnil : df = [] := List.isEmpty_iff.mp hemp
    subst hnil
    exact ⟨fun r hr => absurd hr (by simp [clean_data]), by simp [clean_data]⟩
  · have hne : df.isEmpty = false := by
      cases h : df.isEmpty
      · rfl
      · exact absurd h hemp
    constructor
    · intro r hr
      rw [clean_data_fst_eq ids rep df hne] at hr
      obtain ⟨r0, hr0, rfl⟩ := List.mem_map.mp hr
      exact fixZeroSpeed_zero (List.of_mem_filter hr0)
    · rw [clean_data_fst_eq ids rep df hne, List.length_map,
        ← List.countP_eq_length_filter,
        List.Perm.countP_eq mask_valid (sortBy_perm rowLe (df.filter (sensorOk ids))),
        countP_filter_and]

/-- Claim C2 witness: the spec example - a row with speed 0 and flow 120 is
kept with flow zeroed, and no valid row is dropped. -/
theorem C2_witness :
    (⟨1, some 0, some 0, some 0⟩ : RawRow).intensidad = some 0 ∧
    (clean_data none none
        [⟨1, some 0, some 0, some 120⟩, ⟨1, some 1, some 50, some 1000⟩]).1.length =
      List.countP (fun r => sensorOk none r && mask_valid r)
        [⟨1, some 0, some 0, some 120⟩, (⟨1, some 1, some 50, some 1000⟩ : RawRow)] :=
  ⟨(C2_zero_flow none none
      [⟨1, some 0, some 0, some 120⟩, ⟨1, some 1, some 50, some 1000⟩]).1
      ⟨1, some 0, some 0, some 0⟩ (by decide) (by decide),
    (C2_zero_flow none none
      [⟨1, some 0, some 0, some 120⟩, ⟨1, some 1, some 50, some 1000⟩]).2⟩

/-- Claim C9, counterexample: clean_data performs no deduplication, so two
identical valid rows for one sensor and timestamp both survive cleaning and
the output timestamps are not pairwise distinct within the sensor. -/
theorem C9_counterexample :
    ¬ (((clean_data none none
        [⟨7, some 5, some 50, some 1000⟩,
          ⟨7, some 5, some 50, some 1000⟩]).1.map pairKey).Nodup) := by
  decide

/-- Claim C9 (amended): clean_data never introduces a duplicate
(sensor, timestamp) pair: when the input pairs are pairwise distinct, so are
the output pairs; but it does not enforce distinctness on inputs that already
contain duplicates. -/
theorem C9_pair_distinct :
    ∀ (ids : Option (List ℕ)) (rep : Option QualityReport) (df : List RawRow),
      (df.map pairKey).Nodup → ((clean_data ids rep df).1.map pairKey).Nodup := by
  intro ids rep df hN
  by_cases hemp : df.isEmpty = true
  · have hnil : df = [] := List.isEmpty_iff.mp hemp
    subst hnil
    simp [clean_data]
  · have hne : df.isEmpty = false := by
      cases h : df.isEmpty
      · rfl
      · exact absurd h hemp
    rw [clean_data_fst ids rep df hne]
    set L3 := (sortBy rowLe (df.filter (sensorOk ids))).filter mask_valid with hL3
    set L4 := L3.map fixZeroSpeed with hL4
    set L5 := groupApply interpolateLimit2 (fun r => r.vmed)
      (fun r v => { r with vmed := v }) L4 with hL5
    set L6 := groupApply interpolateLimit2 (fun r => r.intensidad)
      (fun r v => { r with intensidad := v }) L5 with hL6
    have n1 : ((df.filter (sensorOk ids)).map pairKey).Nodup :=
      List.Nodup.sublist (List.Sublist.map pairKey (List.filter_sublist df)) hN
    have n2 : ((sortBy rowLe (df.filter (sensorOk ids))).map pairKey).Nodup := by
      have hp : List.Perm ((sortBy rowLe (df.filter (sensorOk ids))).map pairKey)
          ((df.filter (sensorOk ids)).map pairKey) :=
        (sortBy_perm rowLe (df.filter (sensorOk ids))).map pairKey
      exact (List.Perm.nodup_iff hp).mpr n1
    have n3 : (L3.map pairKey).Nodup := by
      rw [hL3]
      exact List.Nodup.sublist (List.Sublist.map pairKey (List.filter_sublist _)) n2
    have h4eq : L4.map pairKey = L3.map pairKey := by
      rw [hL4, List.map_map]
      refine List.map_congr_left (fun r _ => ?_)
      show pairKey (fixZeroSpeed r) = pairKey r
      rw [fixZeroSpeed]
      split <;> rfl
    have h5eq : L5.map pairKey = L4.map pairKey := by
      rw [hL5]
      exact groupApply_pairKey interpolateLimit2 (fun r => r.vmed)
        (fun r v => { r with vmed := v }) interpolateLimit2_length (fun r v => rfl) L4
    have h6eq : L6.map pairKey = L5.map pairKey := by
      rw [hL6]
      exact groupApply_pairKey interpolateLimit2 (fun r => r.intensidad)
        (fun r v => { r with intensidad := v }) interpolateLimit2_length (fun r v => rfl) L5
    have n6 : (L6.map pairKey).Nodup := by
      rw [h6eq, h5eq, h4eq]
      exact n3
    show ((dropnaSpeedFlow L6).map pairKey).Nodup
    rw [dropnaSpeedFlow]
    exact List.Nodup.sublist (List.Sublist.map pairKey (List.filter_sublist L6)) n6

/-- Claim C9 witness: two rows of one sensor at distinct timestamps keep
distinct (sensor, timestamp) pairs through cleaning. -/
theorem C9_witness :
    ((clean_data none none
      [⟨1, some 0, some 50, some 900⟩,
        ⟨1, some 1, some 60, some 800⟩]).1.map pairKey).Nodup :=
  C9_pair_distinct none none _ (by decide)

example : density_bin 42 = 40 := by decide
example : calculate_critical_density [(some 38, some 1000), (some 42, some 2000), (some 50, some 500)] = 40 := by decide
example : calculate_critical_density [(some 70, some 1000)] = 70 := by decide
example : calculate_critical_density [(none, some 5)] = 40 := by decide
example : round_speed 85 = 80 := by decide
example : round_speed 95 = 100 := by decide
example : round_speed 44 = 40 := by decide
example : round_speed 47 = 50 := by decide
